import Mathlib

/-!
Verification of the Snowflake Cortex Analyst service (FastAPI, two variants:
`src/main.py` and `src/backend/main.py`) against its natural-language
specification.  Remote calls (Cortex analyst API, SQL execution through the
warehouse session) are modelled as oracle parameters; HTTP handler outcomes
are modelled as an explicit success-or-error sum.
-/

namespace Cortex

/-- Whether the first character list is a prefix of the second. -/
def startsWithChars : List Char → List Char → Bool
  | [], _ => true
  | _ :: _, [] => false
  | n :: ns, h :: hs => n == h && startsWithChars ns hs

/-- Whether the first character list occurs contiguously in the second. -/
def occursIn (needle : List Char) : List Char → Bool
  | [] => startsWithChars needle []
  | h :: hs => startsWithChars needle (h :: hs) || occursIn needle hs

/-- Python substring test: `needle in haystack`. -/
def pyInStr (needle haystack : String) : Bool :=
  occursIn needle.data haystack.data

/-! ## Remote Service Gateway: `CortexEndpointBuilder` (src/main.py lines 55-117) -/

/-- The connection object as seen by `CortexEndpointBuilder`: an optional
`scheme` attribute (Python `hasattr(con, "scheme")`), a `host`, and the
session token `con.rest.token`. -/
structure Connection where
  scheme : Option String
  host : String
  restToken : String
deriving DecidableEq

/-- `CortexEndpointBuilder._set_base_url`: scheme (default https) and the
host with underscores replaced by hyphens, lower-cased, joined by
`urlunparse((scheme, host, "", "", "", ""))`. -/
def setBaseUrl (con : Connection) : String :=
  let scheme := con.scheme.getD "https"
  let host := ((con.host.replace "_" "-").toLower)
  scheme ++ "://" ++ host

/-- The base headers dict built by `_set_base_headers`. -/
structure BaseHeaders where
  contentType : String
  authorization : String
deriving DecidableEq

/-- Python f-string rendering of the token variable: `None` prints as the
string "None", a string prints as itself. -/
def tokenText : Option String → String
  | none => "None"
  | some t => t

/-- `CortexEndpointBuilder._set_base_headers`: inside Snowflake the token is
`None`; outside it is `connection.rest.token`.  Either way the dict has
Content-Type and an Authorization entry interpolating the token. -/
def setBaseHeaders (insideSnowflake : Bool) (con : Connection) : BaseHeaders :=
  let token : Option String := if insideSnowflake then none else some con.restToken
  { contentType := "application/json"
    authorization := "Snowflake Token=\"" ++ tokenText token ++ "\"" }

/-- `get_complete_endpoint`. -/
def getCompleteEndpoint (insideSnowflake : Bool) (con : Connection) : String :=
  let urlSuffix := "/api/v2/cortex/inference:complete"
  if insideSnowflake then urlSuffix else setBaseUrl con ++ urlSuffix

/-- `get_analyst_endpoint`. -/
def getAnalystEndpoint (insideSnowflake : Bool) (con : Connection) : String :=
  let urlSuffix := "/api/v2/cortex/analyst/message"
  if insideSnowflake then urlSuffix else setBaseUrl con ++ urlSuffix

/-- `get_search_endpoint`. -/
def getSearchEndpoint (insideSnowflake : Bool) (con : Connection)
    (database schema serviceName : String) : String :=
  let urlSuffix :=
    ("/api/v2/databases/" ++ database ++ "/schemas/" ++ schema ++
      "/cortex-search-services/" ++ serviceName ++ ":query").toLower
  if insideSnowflake then urlSuffix else setBaseUrl con ++ urlSuffix

/-! ## SQL execution oracle

`cursor.execute` / `session.sql(query).to_pandas()` either yields a data
frame (rows plus column names) or raises `SnowparkSQLException` with a
message.  The oracle maps each SQL string to one of these outcomes. -/

/-- A result row: column name to cell value. -/
abbrev Row := List (String × String)

/-- Outcome of running one SQL statement against the warehouse. -/
inductive SqlOutcome where
  | ok (data : List Row) (columns : List String)
  | sqlErr (msg : String)
deriving DecidableEq

/-- An oracle fixing the warehouse response to every SQL string. -/
abbrev SqlOracle := String → SqlOutcome

/-! ## `CortexAnalystTool._prepare_analyst_request` (src/main.py lines 162-175) -/

/-- One content block of the outgoing analyst request. -/
structure OutContent where
  type : String
  text : String
deriving DecidableEq

/-- One message of the outgoing analyst request. -/
structure OutMsg where
  role : String
  content : List OutContent
deriving DecidableEq

/-- The request body built by `_prepare_analyst_request`. -/
structure AnalystRequestData where
  messages : List OutMsg
  semanticModelFile : String
deriving DecidableEq

/-- `_prepare_analyst_request`: the prompt is placed directly into the text
block; the semantic model file is the stage path prefixed with `@`. -/
def prepareAnalystRequestData (file prompt : String) : AnalystRequestData :=
  { messages := [{ role := "user", content := [{ type := "text", text := prompt }] }]
    semanticModelFile :=
      "@VAP_DEV_VAPNL_POC.ANALYSE_POC.INPUT_STAGE_CORTEX/" ++ file }

/-- The prompt text embedded in the built request body (the text of the
single content block of the single message). -/
def embeddedPrompt (d : AnalystRequestData) : String :=
  ((d.messages.map (fun m => m.content.map (fun c => c.text))).flatten).headD ""

/-! ## Incoming client request (`/analyst/message`, src/main.py lines 340-367)

The handler reads the raw JSON body with `.get`, so every key may be
absent: absent keys are `Option.none` here. -/

/-- One content block of a client message (`content.get("type")`,
`content.get("text", "")`). -/
structure InContent where
  type : Option String
  text : Option String
deriving DecidableEq

/-- One client message (`message.get("role")`, `message.get("content", [])`). -/
structure InMsg where
  role : Option String
  content : List InContent
deriving DecidableEq

/-- The client request body.  `conversation_id` may be present in the JSON
but the handler never reads it. -/
structure InRequest where
  messages : List InMsg
  semanticModelFile : Option String
  conversationId : Option String
deriving DecidableEq

/-- The inner loop of the user-query extraction: the first content block
with `type == "text"` yields `content.get("text", "")`. -/
def firstTextBlock : List InContent → Option String
  | [] => none
  | c :: rest =>
    if c.type == some "text" then some (c.text.getD "") else firstTextBlock rest

/-- The extraction loop over `reversed(messages)`: on a user message, take
its first text block (if any); stop once the accumulated query is
non-empty (`if user_query: break`). -/
def extractLoop : List InMsg → String → String
  | [], acc => acc
  | m :: rest, acc =>
    if m.role == some "user" then
      let acc2 := (firstTextBlock m.content).getD acc
      if acc2 != "" then acc2 else extractLoop rest acc2
    else extractLoop rest acc

/-- `user_query` as computed by `analyst_message` (src/main.py 352-361). -/
def extractUserQuery (messages : List InMsg) : String :=
  extractLoop messages.reverse ""

/-! ## Remote analyst response (parsed JSON from `cortex_tool.ask`) -/

/-- One content item of the remote analyst response.  The real service
always supplies `type`; `statement` is present only on SQL items
(`"statement" in response[1]` is a key-presence test, hence `Option`). -/
structure RespContent where
  type : String
  statement : Option String
deriving DecidableEq

/-- `response["message"]`, whose `"content"` key may be absent. -/
structure RespMessage where
  content : Option (List RespContent)
deriving DecidableEq

/-- The remote analyst response: `request_id` and `message` keys may be
absent (`response.get("request_id", "default")`, `"message" in response`). -/
structure AnalystResponse where
  requestId : Option String
  message : Option RespMessage
deriving DecidableEq

/-- An oracle for `cortex_tool.ask`: transport or JSON-decoding failures
raise, modelled as `Except.error` with the exception text. -/
abbrev AskOracle := String → Except String AnalystResponse

/-- The result of executing the SQL found in an analyst response
(the dict returned by `process_sql_response`). -/
structure SqlResult where
  query : String
  data : List Row
  columns : List String
deriving DecidableEq

/-- `CortexAnalystTool.process_sql_response` (src/main.py 177-195).
Guard: `len(response) > 1 and "sql" in response[0]["type"] and "statement"
in response[1]`; when it holds, `response[1]["statement"]` is executed.
A warehouse SQL error from `cursor.execute` raises (`Except.error`).
The second component logs every statement handed to the warehouse. -/
def processSqlResponse (exec : SqlOracle) :
    List RespContent → Except String (Option SqlResult) × List String
  | c0 :: c1 :: _ =>
    match c1.statement with
    | some q =>
      if pyInStr "sql" c0.type then
        match exec q with
        | .ok data cols => (.ok (some { query := q, data := data, columns := cols }), [q])
        | .sqlErr m => (.error m, [q])
      else (.ok none, [])
    | none => (.ok none, [])
  | _ => (.ok none, [])

/-! ## Conversation store (`conversations = {}`, a global dict) -/

/-- An entry of a stored conversation: either a raw client message
(`conversations[cid].extend(messages)`) or an executed-SQL record
(`conversations[cid].append({"sql_result": ...})`). -/
inductive StoredItem where
  | msg (m : InMsg)
  | sqlRes (r : SqlResult)
deriving DecidableEq

/-- The `conversations` dict: association list keyed by conversation id. -/
abbrev Store := List (String × List StoredItem)

/-- Dict update `conversations[k] = v`: replace in place when the key
exists, append a fresh binding otherwise. -/
def storeSet (s : Store) (k : String) (v : List StoredItem) : Store :=
  if (s.lookup k).isSome then
    s.map (fun p => if p.1 = k then (k, v) else p)
  else s ++ [(k, v)]

/-- Outcome of an HTTP handler: a 200-payload, or a raised
`HTTPException(status_code, detail)`. -/
inductive HResp (α : Type) where
  | ok (payload : α)
  | err (status : Nat) (detail : String)
deriving DecidableEq

/-- `conversations[cid] = conversations.get(cid, []) + items` — the
"create empty list if absent, then extend" idiom of the handler. -/
def storeExtend (s : Store) (k : String) (items : List StoredItem) : Store :=
  storeSet s k ((s.lookup k).getD [] ++ items)

/-- Everything `analyst_message` leaves behind: the HTTP response, the
(mutated) global `conversations` dict, and the statements actually sent to
the warehouse. -/
structure HandlerOut where
  resp : HResp AnalystResponse
  store : Store
  execLog : List String
deriving DecidableEq

/-- `POST /analyst/message` (src/main.py 340-413), `USE_SNOWFLAKE` path.
Steps: extract `user_query`; `await cortex_tool.ask` (failure raises and
is converted to HTTP 500 by the `except` block); store the request
messages under `response.get("request_id", "default")`; when the response
has `message.content`, run `process_sql_response` — its result, if any, is
appended to the conversation; the HTTP payload is the analyst response
unchanged.  A raise inside SQL processing happens after the messages were
stored (the global dict mutation persists). -/
def analystMessage (exec : SqlOracle) (ask : AskOracle)
    (req : InRequest) (store : Store) : HandlerOut :=
  let userQuery := extractUserQuery req.messages
  match ask userQuery with
  | .error e => { resp := .err 500 e, store := store, execLog := [] }
  | .ok response =>
    let cid := response.requestId.getD "default"
    let store1 := storeExtend store cid (req.messages.map StoredItem.msg)
    match response.message with
    | some m =>
      match m.content with
      | some content =>
        match processSqlResponse exec content with
        | (.error e, log) => { resp := .err 500 e, store := store1, execLog := log }
        | (.ok none, log) => { resp := .ok response, store := store1, execLog := log }
        | (.ok (some r), log) =>
          let store2 := storeExtend store1 cid [StoredItem.sqlRes r]
          { resp := .ok response, store := store2, execLog := log }
      | none => { resp := .ok response, store := store1, execLog := [] }
    | none => { resp := .ok response, store := store1, execLog := [] }

/-- `GET /conversations/:id` (src/main.py 431-439): 404 when the id is
not a key of `conversations`, otherwise the id and its messages. -/
def getConversation (store : Store) (id : String) :
    HResp (String × List StoredItem) :=
  match store.lookup id with
  | none => .err 404 "Conversation not found"
  | some ms => .ok (id, ms)

/-- `DELETE /conversations/:id` (src/main.py 441-450): 404 when absent,
otherwise `del conversations[id]` and a success message. -/
def deleteConversation (store : Store) (id : String) :
    HResp String × Store :=
  match store.lookup id with
  | none => (.err 404 "Conversation not found", store)
  | some _ =>
    (.ok "Conversation deleted successfully", store.filter (fun p => !(p.1 == id)))

/-! ## Backend variant (src/backend/main.py) -/

/-- `get_query_exec_result` (src/backend/main.py 303-317): run
`session.sql(query).to_pandas()`; a success yields `(df, None)`, a
`SnowparkSQLException` is caught and yields `(None, str(e))`.  The
function is total on these outcomes — it never raises for a
warehouse-reported SQL error. -/
def getQueryExecResult (oracle : SqlOracle) (query : String) :
    Option (List Row × List String) × Option String :=
  match oracle query with
  | .ok data cols => (some (data, cols), none)
  | .sqlErr m => (none, some m)

/-- The remote feedback response as seen after `json.loads(resp["content"])`:
the three fields are read with `.get`, so each may be absent. -/
structure FeedbackContent where
  requestId : Option String
  errorCode : Option String
  message : Option String
deriving DecidableEq

/-- The envelope returned by `_snowflake.send_snow_api_request`. -/
structure ApiResp where
  status : Nat
  content : FeedbackContent
deriving DecidableEq

/-- Outcome of `POST /analyst/feedback`: a success message, or a raised
`HTTPException` whose detail is the dict of the three extracted fields. -/
inductive FeedbackResult where
  | ok (msg : String)
  | err (status : Nat) (requestId errorCode message : Option String)
deriving DecidableEq

/-- `submit_feedback` (src/backend/main.py 168-203): on remote status 200
return the success message; otherwise raise `HTTPException` with the
remote status and the `request_id` / `error_code` / `message` fields of
the parsed remote body.  The `except` block re-raises `HTTPException`
unchanged (`isinstance` check), so the remote status survives. -/
def submitFeedback (resp : ApiResp) : FeedbackResult :=
  if resp.status == 200 then
    .ok "Feedback submitted successfully"
  else
    .err resp.status resp.content.requestId resp.content.errorCode resp.content.message

/-- The JSON payload of a successful `/execute-sql` response. -/
structure ExecSqlPayload where
  success : Bool
  data : List Row
  columns : List String
deriving DecidableEq

/-- Starlette rendering `str(HTTPException(status, detail))`, i.e.
`f"status_code: detail"`. -/
def httpExceptionText (status : Nat) (detail : String) : String :=
  toString status ++ ": " ++ detail

/-- `POST /execute-sql` (src/backend/main.py 226-257).  `request.get("query")`
may be absent; Python `if not query` rejects both an absent and an empty
query with 400.  Inside the `try`, a SQL error makes the handler raise
`HTTPException(400, error)` — but that raise is caught by the enclosing
`except Exception` (no `isinstance` re-raise here) and replaced by
`HTTPException(500, str(e))`. -/
def executeSql (oracle : SqlOracle) (query : Option String) :
    HResp ExecSqlPayload :=
  match query with
  | none => .err 400 "Query is required"
  | some q =>
    if q == "" then .err 400 "Query is required"
    else
      match getQueryExecResult oracle q with
      | (_, some e) => .err 500 (httpExceptionText 400 e)
      | (some (data, cols), none) =>
        .ok { success := true, data := data, columns := cols }
      | (none, none) => .err 500 (httpExceptionText 400 "")

/-! ## Concrete fixtures used by witnesses and counterexamples -/

/-- A SQL oracle that succeeds on every statement with no rows. -/
def execOracle0 : SqlOracle := fun _ => SqlOutcome.ok [] []

/-- A SQL oracle returning one row with one column. -/
def execRowsOracle : SqlOracle := fun _ => SqlOutcome.ok [[("A", "1")]] ["A"]

/-- A SQL oracle on which every statement fails with a warehouse error. -/
def execFailOracle : SqlOracle := fun _ => SqlOutcome.sqlErr "SQL compilation error"

/-- An ask oracle on which the remote analysis call always fails
(network down / timeout raised from `aiohttp` or `json.loads`). -/
def askFailOracle : AskOracle := fun _ => Except.error "network down"

/-- An ask oracle returning a response with no `request_id` and no
`message` key. -/
def askNoIdOracle : AskOracle := fun _ =>
  Except.ok { requestId := none, message := none }

/-- A canonical analyst-shaped content list: a text block first, then a
SQL block carrying a generated statement. -/
def sqlContentPair : List RespContent :=
  [{ type := "text", statement := none },
   { type := "sql", statement := some "SELECT 1" }]

/-- An ask oracle returning a payload whose content carries the generated
statement `SELECT 1` in the canonical text-then-sql shape. -/
def askSqlOracle : AskOracle := fun _ =>
  Except.ok { requestId := some "req-1"
              message := some { content := some sqlContentPair } }

/-- A content list whose first item type contains "sql", so the
`process_sql_response` guard passes. -/
def sqlFirstContent : List RespContent :=
  [{ type := "sql", statement := none },
   { type := "sql", statement := some "SELECT 2" }]

/-- An ask oracle returning the guard-passing content list. -/
def askSqlFirstOracle : AskOracle := fun _ =>
  Except.ok { requestId := some "req-2"
              message := some { content := some sqlFirstContent } }

/-- A one-message client request: the user utterance "hello". -/
def msgHello : InMsg :=
  { role := some "user", content := [{ type := some "text", text := some "hello" }] }

/-- The request wrapping `msgHello`, with no conversation id supplied. -/
def reqHello : InRequest :=
  { messages := [msgHello], semanticModelFile := none, conversationId := none }

/-- A store already holding the shared "default" conversation (empty). -/
def storeDefault : Store := [("default", [])]

/-- A second client message, from a different caller. -/
def msgRevenue : InMsg :=
  { role := some "user", content := [{ type := some "text", text := some "revenue" }] }

/-- The request wrapping `msgRevenue`, with a client-chosen conversation id. -/
def reqRevenue : InRequest :=
  { messages := [msgRevenue], semanticModelFile := none,
    conversationId := some "client-id" }

/-! ## Store lemmas -/

theorem lookup_filter_ne (s : Store) (id : String) :
    (s.filter (fun p => !(p.1 == id))).lookup id = none := by
  induction s with
  | nil => rfl
  | cons a rest ih =>
    by_cases h : a.1 = id
    · have hb : (a.1 == id) = true := beq_iff_eq.mpr h
      simp [List.filter, hb, ih]
    · have hb : (a.1 == id) = false := beq_eq_false_iff_ne.mpr h
      have hk : (id == a.1) = false := beq_eq_false_iff_ne.mpr (fun hh => h hh.symm)
      simp [List.filter, hb, List.lookup, hk, ih]

theorem lookup_map_set (s : Store) (k : String) (v : List StoredItem)
    (h : (s.lookup k).isSome) :
    (s.map (fun p => if p.1 = k then (k, v) else p)).lookup k = some v := by
  induction s with
  | nil => simp [List.lookup] at h
  | cons a rest ih =>
    simp only [List.map_cons]
    by_cases ha : a.1 = k
    · rw [if_pos ha]
      have hk : (k == k) = true := beq_iff_eq.mpr rfl
      simp [List.lookup, hk]
    · rw [if_neg ha]
      have hk : (k == a.1) = false := beq_eq_false_iff_ne.mpr (fun hh => ha hh.symm)
      simp only [List.lookup, hk, cond_false] at h ⊢
      exact ih h

theorem storeSet_lookup_self (s : Store) (k : String) (v : List StoredItem) :
    (storeSet s k v).lookup k = some v := by
  unfold storeSet
  by_cases h : (s.lookup k).isSome
  · simpa [h] using lookup_map_set s k v h
  · simp only [h, if_false]
    induction s with
    | nil => simp [List.lookup]
    | cons a rest ih =>
      simp only [Option.isSome] at h
      simp only [List.cons_append, List.lookup] at h ⊢
      cases hka : (k == a.1) with
      | true => rw [hka] at h; simp at h
      | false =>
        rw [hka] at h
        simp only [cond_false] at h ⊢
        exact ih h

theorem storeSet_length_of_mem (s : Store) (k : String) (v : List StoredItem)
    (h : (s.lookup k).isSome) : (storeSet s k v).length = s.length := by
  unfold storeSet
  simp [h]

theorem storeSet_length_of_not_mem (s : Store) (k : String) (v : List StoredItem)
    (h : s.lookup k = none) : (storeSet s k v).length = s.length + 1 := by
  unfold storeSet
  simp [h]

theorem storeExtend_lookup_self (s : Store) (k : String) (items : List StoredItem) :
    (storeExtend s k items).lookup k = some ((s.lookup k).getD [] ++ items) :=
  storeSet_lookup_self s k _

theorem storeExtend_length_of_mem (s : Store) (k : String) (items : List StoredItem)
    (h : (s.lookup k).isSome) : (storeExtend s k items).length = s.length :=
  storeSet_length_of_mem s k _ h

theorem storeExtend_length_of_not_mem (s : Store) (k : String) (items : List StoredItem)
    (h : s.lookup k = none) : (storeExtend s k items).length = s.length + 1 :=
  storeSet_length_of_not_mem s k _ h

/-! ## Claim theorems -/

/-- C3 counterexample: the prompt `O"Brien` contains a quote character,
yet the text embedded in the outgoing analyst request equals the prompt
verbatim — `_prepare_analyst_request` performs no escaping or
neutralization, contradicting the claim that prompts containing quote
characters are neutralized rather than inserted as-is. -/
theorem C3_counterexample :
    embeddedPrompt (prepareAnalystRequestData "PIANO_B2C.yaml" "O\"Brien") = "O\"Brien"
      ∧ "O\"Brien".data.contains '\"' = true :=
  ⟨rfl, by decide⟩

/-- C3 amended: for every semantic-model file name and every prompt, the
prompt is embedded verbatim in the outgoing request body built by
`_prepare_analyst_request`; no character (quote characters included) is
escaped or neutralized. -/
theorem C3_amended_verbatim_prompt_embedding (file prompt : String) :
    embeddedPrompt (prepareAnalystRequestData file prompt) = prompt :=
  rfl

/-- C4: when the endpoint builder is constructed in embedded mode
(`_determine_runtime` probe succeeds, `inside_snowflake = True`), every
endpoint it returns is the unqualified suffix path with no base-URL
prefix, and the headers are one fixed dict, identical for every
connection — the session token of the connection (`rest.token`) is never read,
so no bearer/session token is attached (the Authorization entry carries
only the literal placeholder rendering of Python `None`). -/
theorem C4_embedded_mode_unqualified_no_token
    (con con2 : Connection) (database schema serviceName : String) :
    getAnalystEndpoint true con = "/api/v2/cortex/analyst/message"
      ∧ getCompleteEndpoint true con = "/api/v2/cortex/inference:complete"
      ∧ getSearchEndpoint true con database schema serviceName =
          ("/api/v2/databases/" ++ database ++ "/schemas/" ++ schema ++
            "/cortex-search-services/" ++ serviceName ++ ":query").toLower
      ∧ setBaseHeaders true con = setBaseHeaders true con2
      ∧ (setBaseHeaders true con).authorization = "Snowflake Token=\"None\"" :=
  ⟨rfl, rfl, rfl, rfl, rfl⟩

/-- C5: for every SQL string and every warehouse behaviour,
`get_query_exec_result` never raises on a warehouse-reported SQL error:
it is a total function returning `(rows, none)` when the warehouse
succeeds and `(none, error message)` when the warehouse reports a
`SnowparkSQLException`. -/
theorem C5_query_executor_never_raises (oracle : SqlOracle) (query : String) :
    (∀ data cols, oracle query = SqlOutcome.ok data cols →
        getQueryExecResult oracle query = (some (data, cols), none))
      ∧ (∀ m, oracle query = SqlOutcome.sqlErr m →
        getQueryExecResult oracle query = (none, some m)) := by
  constructor
  · intro data cols h
    simp [getQueryExecResult, h]
  · intro m h
    simp [getQueryExecResult, h]

/-- C5 witness: on a warehouse that reports a SQL compilation error for
`SELECT 1`, the executor returns `(none, the message)`. -/
theorem C5_witness :
    getQueryExecResult execFailOracle "SELECT 1" = (none, some "SQL compilation error") :=
  (C5_query_executor_never_raises execFailOracle "SELECT 1").2 "SQL compilation error" rfl

/-- C7: when the relayed feedback call returns a non-2xx status, the
`/analyst/feedback` endpoint raises `HTTPException` carrying that same
remote status code and the `request_id`, `error_code` and `message`
fields extracted from the parsed remote body (the `except` block re-raises
`HTTPException` unchanged). -/
theorem C7_feedback_relays_remote_error (resp : ApiResp)
    (h : resp.status < 200 ∨ 300 ≤ resp.status) :
    submitFeedback resp =
      FeedbackResult.err resp.status resp.content.requestId
        resp.content.errorCode resp.content.message := by
  have hne : resp.status ≠ 200 := by omega
  have hb : (resp.status == 200) = false := beq_eq_false_iff_ne.mpr hne
  simp [submitFeedback, hb]

/-- C7 witness: a remote 400 with all three fields present is relayed as
a 400 with exactly those fields. -/
theorem C7_witness :
    submitFeedback
        { status := 400
          content := { requestId := some "req-9", errorCode := some "390001",
                       message := some "invalid request" } } =
      FeedbackResult.err 400 (some "req-9") (some "390001") (some "invalid request") :=
  C7_feedback_relays_remote_error _ (Or.inr (by norm_num))

/-- C8: for every conversation id present in the store, deleting it
succeeds, fetching it afterwards yields 404 "Conversation not found",
and deleting it a second time also yields 404. -/
theorem C8_delete_then_fetch_and_redelete_404 (store : Store) (id : String)
    (h : (store.lookup id).isSome) :
    (deleteConversation store id).1 = HResp.ok "Conversation deleted successfully"
      ∧ getConversation (deleteConversation store id).2 id =
          HResp.err 404 "Conversation not found"
      ∧ (deleteConversation (deleteConversation store id).2 id).1 =
          HResp.err 404 "Conversation not found" := by
  cases hl : store.lookup id with
  | none => rw [hl] at h; simp at h
  | some ms =>
    refine ⟨?_, ?_, ?_⟩
    · simp [deleteConversation, hl]
    · simp [deleteConversation, hl, getConversation, lookup_filter_ne]
    · simp [deleteConversation, hl, lookup_filter_ne]

/-- C8 witness: the behaviour at the one-conversation store holding id
`c1`. -/
theorem C8_witness :
    (deleteConversation [("c1", [])] "c1").1 = HResp.ok "Conversation deleted successfully"
      ∧ getConversation (deleteConversation [("c1", [])] "c1").2 "c1" =
          HResp.err 404 "Conversation not found"
      ∧ (deleteConversation (deleteConversation [("c1", [])] "c1").2 "c1").1 =
          HResp.err 404 "Conversation not found" :=
  C8_delete_then_fetch_and_redelete_404 [("c1", [])] "c1" (by decide)

/-- C9: in the backend variant, for every non-empty query on which the
warehouse reports a SQL error, `POST /execute-sql` responds with HTTP 500,
never 400: the `HTTPException(400, error)` raised inside the `try` block
is caught by the enclosing `except Exception` handler and replaced by an
`HTTPException(500, str(e))`. -/
theorem C9_execute_sql_error_is_500 (oracle : SqlOracle) (q m : String)
    (hq : q ≠ "") (hm : oracle q = SqlOutcome.sqlErr m) :
    executeSql oracle (some q) = HResp.err 500 (httpExceptionText 400 m) := by
  have hb : (q == "") = false := beq_eq_false_iff_ne.mpr hq
  simp [executeSql, hb, getQueryExecResult, hm]

/-- C9 witness: a failing `SELECT 1` yields status 500 with the stringified
inner 400 exception as detail. -/
theorem C9_witness :
    executeSql execFailOracle (some "SELECT 1") =
      HResp.err 500 "400: SQL compilation error" :=
  C9_execute_sql_error_is_500 execFailOracle "SELECT 1" "SQL compilation error"
    (by decide) rfl

/-- C1 counterexample: the non-empty utterance "hello" with a failing
remote analysis call yields `HTTPException(500, "network down")` — an
HTTP-level error, not an assistant answer with (non-empty) textual
content.  This contradicts the claim that every remote-capability failure
is converted into a degraded textual answer rather than propagated as an
HTTP-level error.  (No fallback/apology path exists in either variant:
both `analyst_message` handlers re-raise failures as HTTP 500.) -/
theorem C1_counterexample :
    (analystMessage execOracle0 askFailOracle reqHello []).resp =
      HResp.err 500 "network down" :=
  rfl

/-- C1 amended: for every utterance, when the remote analysis call fails,
`analyst_message` propagates the failure as an HTTP 500 error carrying the
exception text, leaves the conversation store unchanged, and produces no
degraded textual answer (the warehouse is never invoked). -/
theorem C1_amended_analysis_failure_is_http_500 (exec : SqlOracle) (ask : AskOracle)
    (req : InRequest) (store : Store) (e : String)
    (h : ask (extractUserQuery req.messages) = Except.error e) :
    analystMessage exec ask req store =
      { resp := HResp.err 500 e, store := store, execLog := [] } := by
  simp [analystMessage, h]

/-- C1 witness: the amended behaviour at the concrete failing call. -/
theorem C1_amended_witness :
    analystMessage execOracle0 askFailOracle reqHello [] =
      { resp := HResp.err 500 "network down", store := [], execLog := [] } :=
  C1_amended_analysis_failure_is_http_500 execOracle0 askFailOracle reqHello [] "network down" rfl

/-- C2 counterexample: the analyst payload `sqlContentPair` contains a
generated SQL statement (`SELECT 1`, in a content item of type "sql" with
a `statement` key), yet the pipeline sends nothing to the query executor
(empty execution log) and returns the analyst response unchanged, with no
statement or rows in it.  The guard of `process_sql_response` tests
`"sql" in response[0]["type"]` — the type of the FIRST item (here "text") —
while reading the statement from the SECOND item, so the canonical
text-then-sql payload is never executed. -/
theorem C2_counterexample :
    (analystMessage execRowsOracle askSqlOracle reqHello []).execLog = []
      ∧ (analystMessage execRowsOracle askSqlOracle reqHello []).resp =
          HResp.ok { requestId := some "req-1"
                     message := some { content := some sqlContentPair } } :=
  ⟨rfl, rfl⟩

/-- C2 amended: the query executor is invoked — with exactly the second
content item `statement` — only when the content has at least two items,
"sql" occurs in the type of the FIRST item, and the second item carries a
`statement`; on success, the record holding that statement and the
executed rows verbatim is appended to the in-memory conversation, while
the HTTP answer is the analyst response unchanged (no metadata added). -/
theorem C2_amended_guarded_sql_execution (exec : SqlOracle) (ask : AskOracle)
    (req : InRequest) (store : Store) (r : AnalystResponse)
    (c0 c1 : RespContent) (rest : List RespContent)
    (q : String) (data : List Row) (cols : List String)
    (h : ask (extractUserQuery req.messages) = Except.ok r)
    (hc : r.message = some { content := some (c0 :: c1 :: rest) })
    (hs : c1.statement = some q)
    (ht : pyInStr "sql" c0.type = true)
    (he : exec q = SqlOutcome.ok data cols) :
    (analystMessage exec ask req store).execLog = [q]
      ∧ (analystMessage exec ask req store).resp = HResp.ok r
      ∧ (analystMessage exec ask req store).store.lookup (r.requestId.getD "default") =
          some ((store.lookup (r.requestId.getD "default")).getD []
            ++ req.messages.map StoredItem.msg
            ++ [StoredItem.sqlRes { query := q, data := data, columns := cols }]) := by
  simp only [analystMessage, h, hc, processSqlResponse, hs, ht, he, if_true, true_and]
  rw [storeExtend_lookup_self, storeExtend_lookup_self]
  simp

/-- C2 witness: a guard-passing payload (both items typed "sql") does get
its statement executed, logged, and stored with the returned rows. -/
theorem C2_amended_witness :
    (analystMessage execRowsOracle askSqlFirstOracle reqHello []).execLog = ["SELECT 2"]
      ∧ (analystMessage execRowsOracle askSqlFirstOracle reqHello []).resp =
          HResp.ok { requestId := some "req-2"
                     message := some { content := some sqlFirstContent } }
      ∧ (analystMessage execRowsOracle askSqlFirstOracle reqHello []).store.lookup "req-2" =
          some [StoredItem.msg msgHello,
                StoredItem.sqlRes { query := "SELECT 2", data := [[("A", "1")]],
                                    columns := ["A"] }] := by
  simpa using
    C2_amended_guarded_sql_execution execRowsOracle askSqlFirstOracle reqHello []
      { requestId := some "req-2", message := some { content := some sqlFirstContent } }
      { type := "sql", statement := none } { type := "sql", statement := some "SELECT 2" } []
      "SELECT 2" [[("A", "1")]] ["A"] rfl rfl rfl (by decide) rfl

/-- C6 counterexample: a message sent with an omitted `conversation_id`,
when the analyst response lacks a `request_id` and the store already holds
the shared "default" conversation, creates NO new Conversation: the store
keeps its single (title-less) "default" entry, to which the message is
appended.  This contradicts both parts of the claim — no new Conversation
is created, and no conversation title (first 30 characters, ellipsis)
exists anywhere in the code. -/
theorem C6_counterexample :
    (analystMessage execOracle0 askNoIdOracle reqHello storeDefault).store.length
        = storeDefault.length
      ∧ (analystMessage execOracle0 askNoIdOracle reqHello storeDefault).store =
          [("default", [StoredItem.msg msgHello])] :=
  ⟨rfl, rfl⟩

/-- C6 amended: the messages of a request are stored under the key taken
from the `request_id` of the analyst response (or "default" when absent) — the
client-supplied `conversation_id` plays no role; a new conversation (a
bare message list, with no title derived from the message text) is created
exactly when that key is not yet in the store, in which case the store
grows by one entry, and otherwise the store size is unchanged. -/
theorem C6_amended_store_creation (exec : SqlOracle) (ask : AskOracle)
    (req : InRequest) (store : Store) (r : AnalystResponse)
    (h : ask (extractUserQuery req.messages) = Except.ok r)
    (hm : r.message = none) :
    (analystMessage exec ask req store).store.lookup (r.requestId.getD "default") =
        some ((store.lookup (r.requestId.getD "default")).getD []
          ++ req.messages.map StoredItem.msg)
      ∧ (store.lookup (r.requestId.getD "default") = none →
          (analystMessage exec ask req store).store.length = store.length + 1)
      ∧ ((store.lookup (r.requestId.getD "default")).isSome →
          (analystMessage exec ask req store).store.length = store.length) := by
  simp only [analystMessage, h, hm]
  exact ⟨storeExtend_lookup_self store _ _,
    fun hn => storeExtend_length_of_not_mem store _ _ hn,
    fun hsome => storeExtend_length_of_mem store _ _ hsome⟩

/-- C6 witness: on an empty store, the message is stored under "default"
and exactly one (title-less) conversation entry is created. -/
theorem C6_amended_witness :
    (analystMessage execOracle0 askNoIdOracle reqHello []).store.lookup "default" =
        some [StoredItem.msg msgHello]
      ∧ (analystMessage execOracle0 askNoIdOracle reqHello []).store.length = 0 + 1 := by
  refine ⟨?_, ?_⟩
  · simpa using
      (C6_amended_store_creation execOracle0 askNoIdOracle reqHello []
        { requestId := none, message := none } rfl rfl).1
  · exact
      (C6_amended_store_creation execOracle0 askNoIdOracle reqHello []
        { requestId := none, message := none } rfl rfl).2.1 rfl

/-- C10: the key under which request messages are stored is taken from the
`request_id` of the analyst response, not from the client request — a request
differing only in its `conversation_id` field is handled identically —
and any two requests whose responses lack a `request_id` are appended,
in order, into the single shared "default" conversation. -/
theorem C10_conversation_key_from_response (exec : SqlOracle) (ask : AskOracle)
    (req1 req2 : InRequest) (cid : Option String) (store : Store)
    (r1 r2 : AnalystResponse)
    (h1 : ask (extractUserQuery req1.messages) = Except.ok r1)
    (hr1 : r1.requestId = none) (hm1 : r1.message = none)
    (h2 : ask (extractUserQuery req2.messages) = Except.ok r2)
    (hr2 : r2.requestId = none) (hm2 : r2.message = none) :
    analystMessage exec ask { req1 with conversationId := cid } store =
        analystMessage exec ask req1 store
      ∧ ((analystMessage exec ask req2
            (analystMessage exec ask req1 store).store).store).lookup "default" =
          some ((store.lookup "default").getD []
            ++ req1.messages.map StoredItem.msg
            ++ req2.messages.map StoredItem.msg) := by
  constructor
  · rfl
  · simp only [analystMessage, h1, hr1, hm1, h2, hr2, hm2, Option.getD_none]
    rw [storeExtend_lookup_self, storeExtend_lookup_self]
    simp

/-- C10 witness: two requests from different callers (one with a
client-chosen conversation id) whose responses lack `request_id` both land
in the one shared "default" conversation, in arrival order. -/
theorem C10_witness :
    analystMessage execOracle0 askNoIdOracle
        { reqHello with conversationId := some "ignored" } [] =
        analystMessage execOracle0 askNoIdOracle reqHello []
      ∧ ((analystMessage execOracle0 askNoIdOracle reqRevenue
            (analystMessage execOracle0 askNoIdOracle reqHello []).store).store).lookup
          "default" =
          some [StoredItem.msg msgHello, StoredItem.msg msgRevenue] := by
  simpa using
    C10_conversation_key_from_response execOracle0 askNoIdOracle reqHello reqRevenue
      (some "ignored") [] { requestId := none, message := none }
      { requestId := none, message := none } rfl rfl rfl rfl rfl rfl

end Cortex

